import Mathlib

/-!
Verification development for the research-assistant chat application in
src/tavily_search.py. The session data model, the render loop and the
chat-input handler are embedded as pure functions; one agent invocation is
abstracted by the sequence of events its stream yields together with whether
it raised an exception. Parts of the behaviour that live in external SDKs
rather than in this repository (the bounded tool-call loop of the agent
library, credential validation inside the client constructors) are modelled
from the design spec and marked as such in their doc comments.
-/

namespace TavilyApp

/-- One chat message as stored in st.session_state.messages: a record with a
role field and a content field (lines 77, 88 and 110 of the source). -/
structure Turn where
  role : String
  content : String
  deriving DecidableEq, Repr

/-- The fixed system-instruction content built at lines 50-59 of the source,
parametrized by the date string computed once at startup. -/
def systemContent (today : String) : String :=
  "You are a professional research assistant. Today\x27s date is " ++ today ++ ". " ++
  "If the user asks for **current, real-time, or recent information**, " ++
  "you must use TavilySearch to gather updated details instead of relying only on your own knowledge. " ++
  "Use TavilyExtract when analyzing URLs or long passages of text. " ++
  "Always provide structured summaries, cite sources if available, and ensure responses are factually grounded."

/-- The session state created at line 77 when no state exists yet: a single
system Turn holding the fixed instruction. -/
def initMessages (today : String) : List Turn :=
  [⟨"system", systemContent today⟩]

/-- The chat-history render loop of lines 80-83: every stored Turn whose role
is not "system" is displayed, in storage order; system Turns are skipped. -/
def renderVisible : List Turn → List Turn
  | [] => []
  | t :: rest => if t.role = "system" then renderVisible rest else t :: renderVisible rest

/-- Rendering viewed as an operation on the session: it yields the displayed
Turns together with the stored list it leaves behind. The loop at lines 80-83
only reads st.session_state.messages, so the stored list is returned as is. -/
def renderSession (msgs : List Turn) : List Turn × List Turn :=
  (renderVisible msgs, msgs)

/-- One event yielded by agent.stream, classified the way lines 100-104
inspect it: first by whether it carries the key "output" (with the final
output text), otherwise by whether it carries "intermediate_steps", otherwise
anything else. -/
inductive AgentEvent where
  | outputEvent (text : String)
  | intermediateStepsEvent
  | otherEvent
  deriving DecidableEq, Repr

/-- Whether an event carries the key "output" (the test at line 100). -/
def hasOutputKey : AgentEvent → Bool
  | .outputEvent _ => true
  | .intermediateStepsEvent => false
  | .otherEvent => false

/-- The loop body of lines 99-104 folded over the yielded events:
response_text starts as the accumulator and is overwritten by the text of
each event carrying "output"; other events leave it unchanged. -/
def consumeEvents : List AgentEvent → String → String
  | [], acc => acc
  | .outputEvent s :: rest, _ => consumeEvents rest s
  | .intermediateStepsEvent :: rest, acc => consumeEvents rest acc
  | .otherEvent :: rest, acc => consumeEvents rest acc

/-- The outcome of one invocation of agent.stream at line 99: either the
stream finishes after yielding the listed events, or it raises an exception
carrying message errMsg after yielding some events. -/
inductive StreamOutcome where
  | ok (events : List AgentEvent)
  | raised (events : List AgentEvent) (errMsg : String)
  deriving DecidableEq, Repr

/-- The value of response_text at line 110, per lines 96-107: it starts empty,
is updated by the event loop, and when an exception is raised the except
branch overwrites it with the error message prefixed by the warning marker,
regardless of any events already processed. -/
def responseText : StreamOutcome → String
  | .ok evs => consumeEvents evs ""
  | .raised _ msg => "⚠️ Error: " ++ msg

/-- The chat-input block of lines 86-110. st.chat_input returns no string when
the user submitted nothing this rerun, and the truthiness test of the
walrus-if also skips the whole block on an empty string. Otherwise exactly one
user Turn and then exactly one assistant Turn are appended to the stored
list; the events of the stream never touch the stored list, they only
determine the assistant content through responseText. -/
def handleInput (msgs : List Turn) (userInput : Option String)
    (outcome : StreamOutcome) : List Turn :=
  match userInput with
  | none => msgs
  | some s =>
    if s = "" then msgs
    else msgs ++ [⟨"user", s⟩, ⟨"assistant", responseText outcome⟩]

/-- Session states reachable across Streamlit reruns: the state is created
once at line 77 and afterwards only updated by the chat-input block. -/
inductive Reachable (today : String) : List Turn → Prop
  | init : Reachable today (initMessages today)
  | step (msgs : List Turn) (input : Option String) (outcome : StreamOutcome) :
      Reachable today msgs → Reachable today (handleInput msgs input outcome)

/-- Modelled from the spec: external API credentials are supplied via
process-wide environment configuration at startup, and the client
constructors (ChatGoogleGenerativeAI at lines 15-21, TavilySearch and
TavilyExtract at lines 24-25 — all code of external SDKs, absent from this
repository) fail fatally when the required credential is missing from the
environment. -/
def mkConfiguredClient (env : String → Option String) (keyName : String) :
    Except String Unit :=
  match env keyName with
  | none => Except.error ("ConfigurationError: missing credential " ++ keyName)
  | some _ => Except.ok ()

/-- Startup phase of the script, lines 12-77: construct the model client and
the tool clients from the environment, then create the initial session state.
This runs at module load, before any chat input can be handled. -/
def startup (today : String) (env : String → Option String) :
    Except String (List Turn) :=
  match mkConfiguredClient env "GOOGLE_API_KEY" with
  | Except.error e => Except.error e
  | Except.ok _ =>
    match mkConfiguredClient env "TAVILY_API_KEY" with
    | Except.error e => Except.error e
    | Except.ok _ => Except.ok (initMessages today)

/-- The whole program run: startup first, then the given sequence of
chat-input cycles, each supplying the input of that rerun and the outcome of
the agent invocation for it. -/
def runApp (today : String) (env : String → Option String)
    (cycles : List (Option String × StreamOutcome)) : Except String (List Turn) :=
  match startup today env with
  | Except.error e => Except.error e
  | Except.ok s0 => Except.ok (cycles.foldl (fun m c => handleInput m c.1 c.2) s0)

/-- Ephemeral result of one tool invocation, fed back into the working
context of the turn (spec, data model). -/
structure ToolResult where
  toolName : String
  output : String
  deriving DecidableEq, Repr

/-- One model decision per round: either request a tool call or produce the
final answer (spec, component design step 2). -/
inductive ModelDecision where
  | toolCall (toolName toolInput : String)
  | finalAnswer (text : String)
  deriving DecidableEq, Repr

/-- Assistant content produced when the round limit is reached without a
final answer (spec, boundary property). -/
def stopMessage : String :=
  "Unable to complete: the maximum number of tool-call rounds was reached without a final answer."

/-- Modelled from the spec: the per-turn tool-call loop of the orchestrator
(in the source this loop lives inside the external agent library configured
at lines 62-69 and driven through agent.stream at line 99; its code is not in
this repository). Each round the model is asked for a decision given the
working context; a tool call invokes the adapter, appends the ToolResult to
the context and repeats; rounds are bounded by the remaining-round counter,
and when it is exhausted the loop stops with an assistant Turn indicating
inability to complete. -/
def orchestrate (decideStep : List ToolResult → ModelDecision)
    (invokeTool : String → String → String) :
    Nat → List ToolResult → Turn
  | 0, _ => ⟨"assistant", stopMessage⟩
  | rounds + 1, ctx =>
    match decideStep ctx with
    | ModelDecision.finalAnswer t => ⟨"assistant", t⟩
    | ModelDecision.toolCall name inp =>
        orchestrate decideStep invokeTool rounds (ctx ++ [⟨name, invokeTool name inp⟩])

/-- Helper: every run of the chat-input block leaves the stored list as a
prefix of the new one, extending it only at the end. -/
theorem handleInput_extends (msgs : List Turn) (input : Option String)
    (outcome : StreamOutcome) :
    ∃ tailTurns, handleInput msgs input outcome = msgs ++ tailTurns := by
  cases input with
  | none => exact ⟨[], by simp [handleInput]⟩
  | some s =>
    by_cases hs : s = ""
    · exact ⟨[], by simp [handleInput, hs]⟩
    · exact ⟨[⟨"user", s⟩, ⟨"assistant", responseText outcome⟩], by simp [handleInput, hs]⟩

/-- Helper: every Turn produced by the render loop has a role other than
"system". -/
theorem renderVisible_role (msgs : List Turn) :
    ∀ t ∈ renderVisible msgs, t.role ≠ "system" := by
  induction msgs with
  | nil => intro t ht; simp [renderVisible] at ht
  | cons a rest ih =>
    intro t ht
    by_cases ha : a.role = "system"
    · rw [renderVisible, if_pos ha] at ht
      exact ih t ht
    · rw [renderVisible, if_neg ha] at ht
      rcases List.mem_cons.mp ht with h | h
      · rw [h]; exact ha
      · exact ih t h

/-- Helper: the render loop computes exactly the filter of the stored list
that keeps the Turns whose role is not "system". -/
theorem renderVisible_eq_filter (msgs : List Turn) :
    renderVisible msgs = msgs.filter (fun t => !(t.role == "system")) := by
  induction msgs with
  | nil => rfl
  | cons a rest ih =>
    by_cases ha : a.role = "system"
    · rw [renderVisible, if_pos ha, List.filter_cons]
      simp [ha, ih]
    · rw [renderVisible, if_neg ha, List.filter_cons]
      simp [ha, ih]

/-- Helper: when no yielded event carries the key "output", the event loop
leaves the accumulator unchanged. -/
theorem consumeEvents_no_output (evs : List AgentEvent) (acc : String)
    (h : evs.all (fun e => !hasOutputKey e) = true) :
    consumeEvents evs acc = acc := by
  induction evs generalizing acc with
  | nil => rfl
  | cons e rest ih =>
    rw [List.all_cons, Bool.and_eq_true] at h
    cases e with
    | outputEvent t => simp [hasOutputKey] at h
    | intermediateStepsEvent => exact (consumeEvents.eq_def _ _ ▸ ih acc h.2)
    | otherEvent => exact (consumeEvents.eq_def _ _ ▸ ih acc h.2)

/-- Helper: a string with the warning-marker error prefix is never empty. -/
theorem errorText_ne_empty (m : String) : ("⚠️ Error: " ++ m) ≠ "" := by
  intro h
  have h2 := congrArg String.length h
  rw [String.length_append] at h2
  have h3 : ("⚠️ Error: ").length = 10 := rfl
  have h4 : ("" : String).length = 0 := rfl
  rw [h3, h4] at h2
  omega

example : handleInput (initMessages "d") (some "hi") (StreamOutcome.ok [AgentEvent.outputEvent "ans"]) =
    [⟨"system", systemContent "d"⟩, ⟨"user", "hi"⟩, ⟨"assistant", "ans"⟩] := by
  simp [handleInput, initMessages, responseText, consumeEvents]

example : renderVisible (initMessages "d") = [] := by
  simp [renderVisible, initMessages]

example : responseText (StreamOutcome.raised [AgentEvent.outputEvent "partial"] "boom") =
    "⚠️ Error: boom" := rfl

/-- C1: for every processed user input (a non-empty submitted string), the
chat-input block appends exactly one user Turn followed by exactly one
assistant Turn and nothing else; the assistant content depends on the stream
events only through responseText, so no intermediate tool-call event adds any
Turn to the stored session state. -/
theorem c1_exactly_one_user_one_assistant (msgs : List Turn) (s : String)
    (outcome : StreamOutcome) (h : s ≠ "") :
    handleInput msgs (some s) outcome =
      msgs ++ [⟨"user", s⟩, ⟨"assistant", responseText outcome⟩] := by
  simp [handleInput, h]

theorem c1_exactly_one_user_one_assistant_witness :
    handleInput [] (some "hello") (StreamOutcome.ok [AgentEvent.intermediateStepsEvent]) =
      [⟨"user", "hello"⟩,
       ⟨"assistant", responseText (StreamOutcome.ok [AgentEvent.intermediateStepsEvent])⟩] := by
  have h := c1_exactly_one_user_one_assistant []
    "hello" (StreamOutcome.ok [AgentEvent.intermediateStepsEvent]) (by simp)
  simpa using h

/-- C2: in every reachable session state the first stored Turn is the fixed
system-instruction Turn (so it is never removed or modified by any later
operation), and the render loop displays no Turn whose role is "system". -/
theorem c2_system_turn_fixed_and_hidden (today : String) (msgs : List Turn)
    (h : Reachable today msgs) :
    msgs.head? = some ⟨"system", systemContent today⟩ ∧
    ∀ t ∈ (renderSession msgs).1, t.role ≠ "system" := by
  refine ⟨?_, renderVisible_role msgs⟩
  induction h with
  | init => rfl
  | step msgs input outcome hr ih =>
    obtain ⟨tailTurns, hext⟩ := handleInput_extends msgs input outcome
    rw [hext]
    cases msgs with
    | nil => simp at ih
    | cons a rest => simpa using ih

theorem c2_system_turn_fixed_and_hidden_witness :
    (handleInput (initMessages "2026-10-12") (some "q") (StreamOutcome.ok [])).head? =
      some ⟨"system", systemContent "2026-10-12"⟩ ∧
    ∀ t ∈ (renderSession (handleInput (initMessages "2026-10-12") (some "q")
      (StreamOutcome.ok []))).1, t.role ≠ "system" :=
  c2_system_turn_fixed_and_hidden "2026-10-12" _
    (Reachable.step _ (some "q") (StreamOutcome.ok []) Reachable.init)

/-- C3: when the agent invocation raises an exception with message m, the
except branch stores the error text and the handler appends exactly one
assistant Turn whose content is the user-visible error message (the message m
prefixed by a warning marker, hence never empty and never swallowed); the
single raised outcome is consumed once, with no retry in this code. -/
theorem c3_model_failure_error_turn (msgs : List Turn) (s : String)
    (evs : List AgentEvent) (m : String) (h : s ≠ "") :
    handleInput msgs (some s) (StreamOutcome.raised evs m) =
      msgs ++ [⟨"user", s⟩, ⟨"assistant", "⚠️ Error: " ++ m⟩] ∧
    ("⚠️ Error: " ++ m) ≠ "" :=
  ⟨by simp [handleInput, h, responseText], errorText_ne_empty m⟩

theorem c3_model_failure_error_turn_witness :
    handleInput [] (some "q") (StreamOutcome.raised [] "timeout") =
      [⟨"user", "q"⟩, ⟨"assistant", "⚠️ Error: " ++ "timeout"⟩] ∧
    ("⚠️ Error: " ++ "timeout") ≠ "" := by
  have h := c3_model_failure_error_turn [] "q" [] "timeout" (by simp)
  simpa using h

/-- C4: when a tool adapter raises during the turn, the exception propagates
out of agent.stream and is caught at line 105, so the turn still terminates
with an assistant Turn appended whose content is non-empty, rather than a
crash that aborts the turn. -/
theorem c4_tool_error_turn_terminates (msgs : List Turn) (s : String)
    (evs : List AgentEvent) (m : String) (h : s ≠ "") :
    ∃ c, handleInput msgs (some s) (StreamOutcome.raised evs m) =
        msgs ++ [⟨"user", s⟩, ⟨"assistant", c⟩] ∧ c ≠ "" :=
  ⟨"⚠️ Error: " ++ m, by simp [handleInput, h, responseText], errorText_ne_empty m⟩

theorem c4_tool_error_turn_terminates_witness :
    ∃ c, handleInput [] (some "find this")
        (StreamOutcome.raised [AgentEvent.otherEvent] "tavily unavailable") =
        [⟨"user", "find this"⟩, ⟨"assistant", c⟩] ∧ c ≠ "" := by
  have h := c4_tool_error_turn_terminates [] "find this" [AgentEvent.otherEvent]
    "tavily unavailable" (by simp)
  simpa using h

/-- C5: the orchestrator loop with a configured maximum number of tool-call
rounds terminates for every decision function; in particular when the model
requests a tool call at every round, the loop stops after the configured
maximum and produces the assistant Turn indicating inability to complete,
rather than looping indefinitely. -/
theorem c5_max_rounds_terminates (decideStep : List ToolResult → ModelDecision)
    (invokeTool : String → String → String) (maxRounds : Nat) (ctx : List ToolResult)
    (h : ∀ c, ∃ n i, decideStep c = ModelDecision.toolCall n i) :
    orchestrate decideStep invokeTool maxRounds ctx = ⟨"assistant", stopMessage⟩ := by
  induction maxRounds generalizing ctx with
  | zero => rfl
  | succ k ih =>
    obtain ⟨n, i, hd⟩ := h ctx
    rw [orchestrate, hd]
    exact ih _

theorem c5_max_rounds_terminates_witness :
    orchestrate (fun _ => ModelDecision.toolCall "TavilySearch" "latest news")
      (fun _ _ => "snippet") 5 [] = ⟨"assistant", stopMessage⟩ :=
  c5_max_rounds_terminates (fun _ => ModelDecision.toolCall "TavilySearch" "latest news")
    (fun _ _ => "snippet") 5 [] (fun _ => ⟨"TavilySearch", "latest news", rfl⟩)

/-- C6: the stored Turn sequence is append-only: the chat-input block either
leaves the stored list unchanged or extends it at the end, and rendering
leaves the stored list unchanged, so existing Turns are never removed,
replaced or reordered and chronological order is preserved. -/
theorem c6_append_only (msgs : List Turn) (input : Option String)
    (outcome : StreamOutcome) :
    (∃ tailTurns, handleInput msgs input outcome = msgs ++ tailTurns) ∧
    (renderSession msgs).2 = msgs :=
  ⟨handleInput_extends msgs input outcome, rfl⟩

/-- C7: rendering is pure and idempotent: it leaves the stored session
unchanged, the displayed list is exactly the stored Turns with the
system-role Turns excluded, and rendering again after a render produces the
identical result. -/
theorem c7_render_idempotent_pure (msgs : List Turn) :
    (renderSession msgs).2 = msgs ∧
    (renderSession msgs).1 = msgs.filter (fun t => !(t.role == "system")) ∧
    renderSession ((renderSession msgs).2) = renderSession msgs :=
  ⟨rfl, renderVisible_eq_filter msgs, rfl⟩

/-- C8: when a required API credential is absent from the environment, the
program fails during the startup phase, before any chat-input cycle runs, so
no conversational turn is ever processed with a missing credential. -/
theorem c8_missing_credential_fatal_at_startup (today : String)
    (env : String → Option String) (cycles : List (Option String × StreamOutcome))
    (h : env "GOOGLE_API_KEY" = none ∨ env "TAVILY_API_KEY" = none) :
    ∃ e, runApp today env cycles = Except.error e := by
  rcases h with h | h
  · exact ⟨"ConfigurationError: missing credential " ++ "GOOGLE_API_KEY",
      by simp [runApp, startup, mkConfiguredClient, h]⟩
  · cases hg : env "GOOGLE_API_KEY" with
    | none => exact ⟨"ConfigurationError: missing credential " ++ "GOOGLE_API_KEY",
        by simp [runApp, startup, mkConfiguredClient, hg]⟩
    | some v => exact ⟨"ConfigurationError: missing credential " ++ "TAVILY_API_KEY",
        by simp [runApp, startup, mkConfiguredClient, hg, h]⟩

theorem c8_missing_credential_fatal_at_startup_witness :
    ∃ e, runApp "2026-10-12" (fun _ => none)
      [(some "q", StreamOutcome.ok [AgentEvent.outputEvent "a"])] = Except.error e :=
  c8_missing_credential_fatal_at_startup "2026-10-12" (fun _ => none)
    [(some "q", StreamOutcome.ok [AgentEvent.outputEvent "a"])] (Or.inl rfl)

/-- C9: when the chat input of a rerun is absent or the empty string, the
stored session state is returned unchanged, whatever the agent outcome would
have been: no user Turn and no assistant Turn are appended. -/
theorem c9_no_input_no_change (msgs : List Turn) (input : Option String)
    (outcome : StreamOutcome) (h : input = none ∨ input = some "") :
    handleInput msgs input outcome = msgs := by
  rcases h with h | h <;> subst h <;> simp [handleInput]

theorem c9_no_input_no_change_witness :
    handleInput [⟨"system", "sys"⟩] (some "")
      (StreamOutcome.ok [AgentEvent.outputEvent "unused"]) = [⟨"system", "sys"⟩] :=
  c9_no_input_no_change [⟨"system", "sys"⟩] (some "")
    (StreamOutcome.ok [AgentEvent.outputEvent "unused"]) (Or.inr rfl)

/-- C10: when the agent stream finishes without raising and yields no event
carrying the key "output", response_text keeps its initial empty value, and
the turn still completes by appending an assistant Turn whose content is the
empty string. -/
theorem c10_no_output_empty_assistant (msgs : List Turn) (s : String)
    (evs : List AgentEvent) (hs : s ≠ "")
    (hno : evs.all (fun e => !hasOutputKey e) = true) :
    handleInput msgs (some s) (StreamOutcome.ok evs) =
      msgs ++ [⟨"user", s⟩, ⟨"assistant", ""⟩] := by
  simp [handleInput, hs, responseText, consumeEvents_no_output evs "" hno]

theorem c10_no_output_empty_assistant_witness :
    handleInput [] (some "hi")
      (StreamOutcome.ok [AgentEvent.intermediateStepsEvent, AgentEvent.otherEvent]) =
      [⟨"user", "hi"⟩, ⟨"assistant", ""⟩] := by
  have h := c10_no_output_empty_assistant [] "hi"
    [AgentEvent.intermediateStepsEvent, AgentEvent.otherEvent] (by simp) (by rfl)
  simpa using h

end TavilyApp
